import Mathlib

/-
Shallow embedding of `lambdas/pushDynatraceDeploymentEvent/index.js`.

The JavaScript handler normalizes deployment/annotation signals (from a
CodePipeline job invocation, an SNS notification, or a direct call) into one
canonical event record and posts it to the Dynatrace events API.

Modelling conventions used throughout:
- A JS string-valued property is `Option String`; `none` is an absent
  (`undefined`) property.  JS truthiness of such a value (`undefined` and `""`
  are falsy) is `truthyStr`.
- A JS object-valued property (`attachRules`, `customProperties`) is an
  `Option` of a structure; any present object is truthy, so truthiness is
  `Option.isSome`.
- `customProperties` is an association list `List (String × String)`; JS
  property assignment `obj[k] = v` is `setProp` (replace in place, else append).
- JS builtins `String.prototype.split`, `startsWith` and `includes` are
  re-implemented structurally on `List Char` (`jsSplit`, `jsStartsWith`,
  `jsIncludes`).
- `JSON.parse` of the Dynatrace error response is a JS runtime facility, not
  code of this repository; the value it would produce is therefore an *input*
  of the response classifier (`Option ParsedBody`, with `none` meaning the
  call throws).  Every other definition is a direct transcription of the
  source.
- Callbacks and exceptions are made explicit as outcome values: constructors
  record which reporting path runs, and a dedicated constructor records an
  uncaught JS exception (e.g. calling a method on `undefined`).
-/

namespace DTEvent

/-- Model of `String.prototype.split` restricted to a single separator
character: structural split of a character list.  `[]` input yields `[[]]`,
matching JS `"".split(",") = [""]`. -/
def splitChars (sep : Char) : List Char → List (List Char)
  | [] => [[]]
  | c :: rest =>
    let r := splitChars sep rest
    if c = sep then [] :: r
    else match r with
      | [] => [[c]]
      | h :: t => (c :: h) :: t

/-- Model of JS `s.split(sep)` for a one-character separator. -/
def jsSplit (s : String) (sep : Char) : List String :=
  (splitChars sep s.data).map (fun l => String.mk l)

/-- Auxiliary prefix test on character lists. -/
def hasPrefixChars : List Char → List Char → Bool
  | [], _ => true
  | _ :: _, [] => false
  | a :: as, b :: bs => a = b && hasPrefixChars as bs

/-- Model of JS `s.startsWith(pfx)`. -/
def jsStartsWith (s pfx : String) : Bool := hasPrefixChars pfx.data s.data

/-- Auxiliary infix test on character lists. -/
def hasInfixChars (needle : List Char) : List Char → Bool
  | [] => needle.isEmpty
  | b :: bs => hasPrefixChars needle (b :: bs) || hasInfixChars needle bs

/-- Model of JS `s.includes(sub)`. -/
def jsIncludes (s sub : String) : Bool := hasInfixChars sub.data s.data

/-- JS truthiness of an optional string property: `undefined` and the empty
string are falsy, every other string is truthy. -/
def truthyStr : Option String → Bool
  | none => false
  | some s => s ≠ ""

/-- JS short-circuit `x || y` on optional string values: `x` when truthy,
otherwise `y`. -/
def jsOr (x y : Option String) : Option String :=
  if truthyStr x then x else y

/-- JS property assignment `m[k] = v` on an association list: replaces the
value of an existing key in place, otherwise appends the new binding. -/
def setProp (m : List (String × String)) (k v : String) : List (String × String) :=
  if m.any (fun p => p.1 = k) then m.map (fun p => if p.1 = k then (k, v) else p)
  else m ++ [(k, v)]

/-- The nested `codedeploy` object of `jobDetails` (deployment orchestrator
details), as consumed by the handler. -/
structure CodeDeployDetails where
  deploymentId : String
  deploymentGroup : String
  application : String
deriving DecidableEq, Repr

/-- The `jobDetails` object returned by `cputils.getJobDetails`: pipeline
name, stage, action, and optional CodeDeploy details. -/
structure JobDetails where
  pipelineName : String
  stage : String
  action : String
  codedeploy : Option CodeDeployDetails
deriving DecidableEq, Repr

/-- The `attachRules` object: optional `tagRule` array and optional
`entityIds` array.  Tag rules are kept opaque (the handler never inspects
them, only concatenates), so they are modelled as strings. -/
structure AttachRules where
  tagRule : Option (List String)
  entityIds : Option (List String)
deriving DecidableEq, Repr

/-- An `attachRules` object with neither tag rules nor entity identifiers. -/
def AttachRules.isEmptyRules (ar : AttachRules) : Bool :=
  (ar.tagRule.getD []).isEmpty && (ar.entityIds.getD []).isEmpty

/-- The `postedData` record: the canonical event record under construction.
Each field is an optional JS property. -/
structure PostedData where
  dtApiToken : Option String
  dtTenantURL : Option String
  attachRules : Option AttachRules
  eventType : Option String
  annotationType : Option String
  annotationDescription : Option String
  deploymentName : Option String
  deploymentVersion : Option String
  deploymentProject : Option String
  customProperties : Option (List (String × String))
  source : Option String
  environmentName : Option String
  userComment : Option String
deriving DecidableEq, Repr

/-- The fresh empty object `postedData = {}`. -/
def emptyPostedData : PostedData :=
  { dtApiToken := none, dtTenantURL := none, attachRules := none,
    eventType := none, annotationType := none, annotationDescription := none,
    deploymentName := none, deploymentVersion := none, deploymentProject := none,
    customProperties := none, source := none, environmentName := none,
    userComment := none }

/-- Which reporting path `reportError` takes: the CodePipeline job-failure
API, the direct failure callback `context.fail`, or an uncaught `TypeError`
from calling `.fail` on an `undefined` context. -/
inductive ReportDelivery where
  | viaPutJobFailure
  | viaContextFail
  | crashUndefinedContext
deriving DecidableEq, Repr

/-- Model of `reportError(message, codePipelineJobId, context)`: with a job id
it calls `cputils.putJobFailure`, otherwise `context.fail(message)` — which
throws when `context` is `undefined`. -/
def reportError (message : String) (codePipelineJobId : Option String)
    (context : Option Unit) : ReportDelivery :=
  match codePipelineJobId, context with
  | some _, _ => .viaPutJobFailure
  | none, some _ => .viaContextFail
  | none, none => .crashUndefinedContext

/-- Result of parsing `UserParameters` in the non-JSON (comma-separated)
branch of the handler: the partial `postedData` record and the optional
`monspecurl`. -/
def parseCommaUserParams (up : String) : PostedData × Option String :=
  let userDataConfigs := jsSplit up ','
  let base := { emptyPostedData with environmentName := some (userDataConfigs.headD "") }
  if userDataConfigs.length > 1 && jsStartsWith (userDataConfigs.getD 1 "") "http" then
    (emptyPostedData, some (userDataConfigs.getD 1 ""))
  else
    ({ base with
        userComment := some (if userDataConfigs.length > 1 then userDataConfigs.getD 1 "" else up) },
      none)

/-- Normalization step: `if(!postedData.eventType) postedData.eventType =
jobDetails.codedeploy ? "CUSTOM_DEPLOYMENT" : "CUSTOM_ANNOTATION"`. -/
def defaultEventType (pd : PostedData) (jd : JobDetails) : PostedData :=
  if truthyStr pd.eventType then pd
  else
    let et := if jd.codedeploy.isSome then "CUSTOM_DEPLOYMENT" else "CUSTOM_ANNOTATION"
    { pd with eventType := some et }

/-- Normalization step for `eventType == "CUSTOM_ANNOTATION"`: default
`annotationType` to the pipeline name; then, if a `userComment` is present,
assign it (unconditionally) to `annotationDescription`. -/
def applyAnnotationDefaults (pd : PostedData) (jd : JobDetails) : PostedData :=
  if pd.eventType = some "CUSTOM_ANNOTATION" then
    let pd1 := if truthyStr pd.annotationType then pd
      else { pd with annotationType := some jd.pipelineName }
    if truthyStr pd1.userComment then { pd1 with annotationDescription := pd1.userComment }
    else pd1
  else pd

/-- Normalization step for `eventType == "CUSTOM_DEPLOYMENT"`: default
`deploymentName` to the user comment or pipeline name, `deploymentVersion` to
the CodeDeploy deployment id or the job id, `deploymentProject` to the
pipeline name. -/
def applyDeploymentDefaults (pd : PostedData) (jd : JobDetails) (jobId : String) : PostedData :=
  if pd.eventType = some "CUSTOM_DEPLOYMENT" then
    let dn := if truthyStr pd.userComment then pd.userComment else some jd.pipelineName
    let pd1 := if truthyStr pd.deploymentName then pd
      else { pd with deploymentName := dn }
    let dv := match jd.codedeploy with
      | some cd => cd.deploymentId
      | none => jobId
    let pd2 := if truthyStr pd1.deploymentVersion then pd1
      else { pd1 with deploymentVersion := some dv }
    if truthyStr pd2.deploymentProject then pd2
    else { pd2 with deploymentProject := some jd.pipelineName }
  else pd

/-- Normalization step for `customProperties`: default the whole mapping to
pipeline name/stage/action only when absent; then, whenever CodeDeploy details
are present, assign the three prefixed keys into the mapping (also into a
caller-supplied one). -/
def applyCustomProps (pd : PostedData) (jd : JobDetails) : PostedData :=
  let defaults := [("PipelineName", jd.pipelineName), ("PipelineStage", jd.stage), ("PipelineAction", jd.action)]
  let pd1 := if pd.customProperties.isSome then pd
    else { pd with customProperties := some defaults }
  match jd.codedeploy with
  | none => pd1
  | some cd =>
    let cp := pd1.customProperties.getD []
    let cp := setProp cp "CodeDeploy.DeploymentGroup" cd.deploymentGroup
    let cp := setProp cp "CodeDeploy.Application" cd.application
    let cp := setProp cp "CodeDeploy.DeploymentId" cd.deploymentId
    { pd1 with customProperties := some cp }

/-- Normalization step: `if(!postedData.source) postedData.source = "AWS
CodePipeline"`. -/
def defaultSource (pd : PostedData) : PostedData :=
  if truthyStr pd.source then pd else { pd with source := some "AWS CodePipeline" }

/-- The whole job-context normalization performed inside the
`getJobDetails` callback, in source order. -/
def normalize (pd : PostedData) (jd : JobDetails) (jobId : String) : PostedData :=
  defaultSource
    (applyCustomProps
      (applyDeploymentDefaults
        (applyAnnotationDefaults (defaultEventType pd jd) jd) jd jobId) jd)

/-- The tag-rule attachment performed inside the `downloadFile` callback:
create `attachRules` and `attachRules.tagRule` when absent, then concatenate
the extracted tag rules. -/
def attachTagRules (pd : PostedData) (tagRules : List String) : PostedData :=
  let ar := pd.attachRules.getD { tagRule := some [], entityIds := none }
  let ar := { ar with tagRule := some (ar.tagRule.getD []) }
  { pd with attachRules := some { ar with tagRule := some ((ar.tagRule.getD []) ++ tagRules) } }

/-- Outcome of the CodePipeline branch of the handler, up to the point where
`postToApi` is (or is not) invoked. -/
inductive HandlerOutcome where
  | callbackFailure (message : String)
  | putJobFailure (message : String)
  | apiSubmission (pd : PostedData)
deriving DecidableEq, Repr

/-- The CodePipeline branch of the handler after `UserParameters` parsing:
the `getJobDetails` callback, normalization, the optional artifact download,
and the hand-off to `postToApi`.  The results of the two external calls
(`getJobDetails`, `downloadFile` combined with `monspec.getAllTagRules`) are
inputs. -/
def handlePipelineJob (parsedData : PostedData) (jobId : String)
    (jobDetailsResult : Except String JobDetails)
    (hasInputArtifact : Bool)
    (downloadResult : Except String (List String)) : HandlerOutcome :=
  match jobDetailsResult with
  | .error e => .callbackFailure ("Cant retrieve job details from CodePipeline: " ++ e)
  | .ok jd =>
    let pd := normalize parsedData jd jobId
    if hasInputArtifact then
      match downloadResult with
      | .error e => .putJobFailure e
      | .ok tagRules => .apiSubmission (attachTagRules pd tagRules)
    else .apiSubmission pd

/-- The wire payload `event` built by `postToApi`, field by field.  The
optional fields are copied from `postedData` only when truthy, mirroring the
`properties` loop. -/
structure WireEvent where
  start : String
  «end» : String
  source : String
  eventType : Option String
  attachRules : Option AttachRules
  deploymentName : Option String
  deploymentVersion : Option String
  deploymentProject : Option String
  annotationType : Option String
  annotationDescription : Option String
  customProperties : Option (List (String × String))
deriving DecidableEq, Repr

/-- Construction of the wire payload from a validated record, with both
timestamps set to the submission instant `now`. -/
def buildEvent (pd : PostedData) (now : String) : WireEvent :=
  { start := now
    «end» := now
    source := match pd.source with
      | some s => if s ≠ "" then s else "Dynatrace AWS Lambda"
      | none => "Dynatrace AWS Lambda"
    eventType := pd.eventType
    attachRules := pd.attachRules
    deploymentName := if truthyStr pd.deploymentName then pd.deploymentName else none
    deploymentVersion := if truthyStr pd.deploymentVersion then pd.deploymentVersion else none
    deploymentProject := if truthyStr pd.deploymentProject then pd.deploymentProject else none
    annotationType := if truthyStr pd.annotationType then pd.annotationType else none
    annotationDescription := if truthyStr pd.annotationDescription then pd.annotationDescription else none
    customProperties := pd.customProperties }

/-- Resolution of the global configuration at the top of `postToApi`:
`postedData.dtApiToken = postedData.dtApiToken || dtApiUtils.getDtApiToken()`
and likewise for the tenant URL. -/
def resolveConfig (pd : PostedData) (cfgToken cfgUrl : Option String) : PostedData :=
  { pd with dtApiToken := jsOr pd.dtApiToken cfgToken,
            dtTenantURL := jsOr pd.dtTenantURL cfgUrl }

/-- What `postToApi` does before (or instead of) the HTTP call: either a
validation failure handed to `reportError` — note the source passes no
`context` argument there — or the HTTP POST with its URL, token and payload. -/
inductive PostOutcome where
  | reported (message : String) (delivery : ReportDelivery)
  | apiCall (url : String) (token : String) (event : WireEvent)
deriving DecidableEq, Repr

/-- Is the outcome the HTTP POST? -/
def PostOutcome.isApiCall : PostOutcome → Bool
  | .apiCall _ _ _ => true
  | _ => false

/-- The wire payload of an `apiCall` outcome. -/
def PostOutcome.callEvent : PostOutcome → Option WireEvent
  | .apiCall _ _ e => some e
  | _ => none

/-- Model of `postToApi(postedData, codePipelineJobId, context)` up to the
HTTP call: configuration resolution, the mandatory-field checks in source
order (each invoking `reportError` WITHOUT the `context` argument, hence the
`none` passed to `reportError`), then the payload construction. -/
def postToApi (pd0 : PostedData) (cfgToken cfgUrl : Option String)
    (codePipelineJobId : Option String) (context : Option Unit) (now : String) :
    PostOutcome :=
  let q := resolveConfig pd0 cfgToken cfgUrl
  if truthyStr q.dtApiToken = false then
    .reported "dtApiToken missing" (reportError "dtApiToken missing" codePipelineJobId none)
  else if truthyStr q.dtTenantURL = false then
    .reported "dtTenantURL missing" (reportError "dtTenantURL missing" codePipelineJobId none)
  else if q.attachRules.isNone then
    .reported "attachRules missing" (reportError "attachRules missing" codePipelineJobId none)
  else if truthyStr q.eventType = false then
    .reported "eventType missing" (reportError "eventType missing" codePipelineJobId none)
  else if q.eventType = some "CUSTOM_ANNOTATION" ∧ truthyStr q.annotationType = false then
    .reported "annotationType missing" (reportError "annotationType missing" codePipelineJobId none)
  else if q.eventType = some "CUSTOM_DEPLOYMENT" ∧ truthyStr q.deploymentName = false then
    .reported "deploymentName missing" (reportError "deploymentName missing" codePipelineJobId none)
  else
    .apiCall (q.dtTenantURL.getD "" ++ "/api/v1/events") (q.dtApiToken.getD "")
      (buildEvent q now)

/-- The `error` member of a parsed Dynatrace error response; `message` is
optional because the handler dereferences it without a check. -/
structure JsErrorBody where
  message : Option String
deriving DecidableEq, Repr

/-- A parsed Dynatrace response body, as far as the handler inspects it. -/
structure ParsedBody where
  error : Option JsErrorBody
deriving DecidableEq, Repr

/-- Outcome classes of the `dtApiPost` callback: success, the distinguished
no-matching-entities failure, the generic failure carrying the raw body, or
an uncaught JS exception. -/
inductive ClassifiedOutcome where
  | success
  | noMatchingEntities
  | submissionFailed (rawBody : String)
  | crash
deriving DecidableEq, Repr

/-- Model of the `dtApiPost` callback in `postToApi`.  `parsed` is the value
`JSON.parse(response)` would produce (`none` when it throws).  A 400 response
whose body starts with a brace is parsed; a missing `error.message` or an
unparsable body makes the callback throw (`crash`); otherwise any non-200,
non-matching response falls through to the generic failure report. -/
def classifyResponse (statuscode : Nat) (response : String)
    (parsed : Option ParsedBody) : ClassifiedOutcome :=
  if statuscode = 200 then .success
  else if statuscode = 400 ∧ jsStartsWith response "\x7b" = true then
    match parsed with
    | none => .crash
    | some b =>
      match b.error with
      | none => .submissionFailed response
      | some err =>
        match err.message with
        | none => .crash
        | some m =>
          if jsIncludes m "No MEIdentifier do match" then .noMatchingEntities
          else .submissionFailed response
  else .submissionFailed response

/-! Concrete fixtures used to instantiate the theorems below. -/

/-- A job context without CodeDeploy details. -/
def jdNoDeploy : JobDetails :=
  { pipelineName := "MyPipe", stage := "St", action := "Act", codedeploy := none }

/-- A job context with CodeDeploy details. -/
def jdWithDeploy : JobDetails :=
  { pipelineName := "MyPipe", stage := "St", action := "Act",
    codedeploy := some { deploymentId := "d-1", deploymentGroup := "G", application := "App" } }

/-- A record whose caller supplied a custom-properties mapping. -/
def pdWithCustomProps : PostedData :=
  { emptyPostedData with customProperties := some [("X", "Y")] }

/-- A record with explicitly set annotation fields, a user comment and a
custom-properties mapping. -/
def pdExplicitAnnotation : PostedData :=
  { emptyPostedData with eventType := some "CUSTOM_ANNOTATION",
                         annotationDescription := some "y", userComment := some "x",
                         customProperties := some [("X", "Y")] }

/-- A record whose `attachRules` object is present but empty. -/
def pdEmptyRules : PostedData :=
  { emptyPostedData with attachRules := some { tagRule := some [], entityIds := none },
                         eventType := some "CUSTOM_DEPLOYMENT", deploymentName := some "svc" }

/-- A record missing both `dtApiToken` and `attachRules` (other mandatory
fields present). -/
def pdMissingTokenAndRules : PostedData :=
  { emptyPostedData with dtTenantURL := some "https://t",
                         eventType := some "CUSTOM_ANNOTATION", annotationType := some "a" }

/-- A fully populated deployment record. -/
def pdComplete : PostedData :=
  { emptyPostedData with dtApiToken := some "tok", dtTenantURL := some "https://t",
                         attachRules := some { tagRule := some ["r1"], entityIds := none },
                         eventType := some "CUSTOM_DEPLOYMENT", deploymentName := some "svc-a" }

/-- A record with every normalization-relevant field explicitly set and no
user comment. -/
def pdAllExplicit : PostedData :=
  { emptyPostedData with eventType := some "CUSTOM_DEPLOYMENT",
                         annotationType := some "at", annotationDescription := some "ad",
                         deploymentName := some "dn", deploymentVersion := some "dv",
                         deploymentProject := some "dp", source := some "src",
                         customProperties := some [("K", "V")] }

/-- A record with only an explicit deployment event type. -/
def pdDeployOnly : PostedData :=
  { emptyPostedData with eventType := some "CUSTOM_DEPLOYMENT" }

/-- The parsed record for `UserParameters = "Production,Deployed successfully"`. -/
def pdScenario : PostedData :=
  { emptyPostedData with environmentName := some "Production",
                         userComment := some "Deployed successfully" }

/-! Helper lemmas: which fields each normalization step can touch. -/

lemma defaultEventType_preserves (pd : PostedData) (jd : JobDetails) :
    (defaultEventType pd jd).annotationType = pd.annotationType ∧
    (defaultEventType pd jd).annotationDescription = pd.annotationDescription ∧
    (defaultEventType pd jd).deploymentName = pd.deploymentName ∧
    (defaultEventType pd jd).deploymentVersion = pd.deploymentVersion ∧
    (defaultEventType pd jd).deploymentProject = pd.deploymentProject ∧
    (defaultEventType pd jd).customProperties = pd.customProperties ∧
    (defaultEventType pd jd).source = pd.source ∧
    (defaultEventType pd jd).userComment = pd.userComment := by
  unfold defaultEventType
  split <;> simp

lemma applyAnnotationDefaults_preserves (pd : PostedData) (jd : JobDetails) :
    (applyAnnotationDefaults pd jd).eventType = pd.eventType ∧
    (applyAnnotationDefaults pd jd).deploymentName = pd.deploymentName ∧
    (applyAnnotationDefaults pd jd).deploymentVersion = pd.deploymentVersion ∧
    (applyAnnotationDefaults pd jd).deploymentProject = pd.deploymentProject ∧
    (applyAnnotationDefaults pd jd).customProperties = pd.customProperties ∧
    (applyAnnotationDefaults pd jd).source = pd.source ∧
    (applyAnnotationDefaults pd jd).userComment = pd.userComment := by
  unfold applyAnnotationDefaults
  by_cases h1 : pd.eventType = some "CUSTOM_ANNOTATION" <;>
    by_cases h2 : truthyStr pd.annotationType = true <;>
      by_cases h3 : truthyStr pd.userComment = true <;>
        simp [h1, h2, h3]

lemma applyDeploymentDefaults_preserves (pd : PostedData) (jd : JobDetails) (jobId : String) :
    (applyDeploymentDefaults pd jd jobId).eventType = pd.eventType ∧
    (applyDeploymentDefaults pd jd jobId).annotationType = pd.annotationType ∧
    (applyDeploymentDefaults pd jd jobId).annotationDescription = pd.annotationDescription ∧
    (applyDeploymentDefaults pd jd jobId).customProperties = pd.customProperties ∧
    (applyDeploymentDefaults pd jd jobId).source = pd.source ∧
    (applyDeploymentDefaults pd jd jobId).userComment = pd.userComment := by
  unfold applyDeploymentDefaults
  cases hcd : jd.codedeploy <;> simp only [hcd] <;> split_ifs <;> simp

lemma applyCustomProps_preserves (pd : PostedData) (jd : JobDetails) :
    (applyCustomProps pd jd).eventType = pd.eventType ∧
    (applyCustomProps pd jd).annotationType = pd.annotationType ∧
    (applyCustomProps pd jd).annotationDescription = pd.annotationDescription ∧
    (applyCustomProps pd jd).deploymentName = pd.deploymentName ∧
    (applyCustomProps pd jd).deploymentVersion = pd.deploymentVersion ∧
    (applyCustomProps pd jd).deploymentProject = pd.deploymentProject ∧
    (applyCustomProps pd jd).source = pd.source ∧
    (applyCustomProps pd jd).userComment = pd.userComment := by
  unfold applyCustomProps
  cases hcd : jd.codedeploy <;> simp only [hcd] <;> split_ifs <;> simp

lemma defaultSource_preserves (pd : PostedData) :
    (defaultSource pd).eventType = pd.eventType ∧
    (defaultSource pd).annotationType = pd.annotationType ∧
    (defaultSource pd).annotationDescription = pd.annotationDescription ∧
    (defaultSource pd).deploymentName = pd.deploymentName ∧
    (defaultSource pd).deploymentVersion = pd.deploymentVersion ∧
    (defaultSource pd).deploymentProject = pd.deploymentProject ∧
    (defaultSource pd).customProperties = pd.customProperties := by
  unfold defaultSource
  split <;> simp

lemma defaultEventType_eventType_of_truthy (pd : PostedData) (jd : JobDetails)
    (h : truthyStr pd.eventType = true) : (defaultEventType pd jd).eventType = pd.eventType := by
  unfold defaultEventType
  simp [h]

lemma applyAnnotationDefaults_annotationType_of_truthy (pd : PostedData) (jd : JobDetails)
    (h : truthyStr pd.annotationType = true) :
    (applyAnnotationDefaults pd jd).annotationType = pd.annotationType := by
  unfold applyAnnotationDefaults
  by_cases h1 : pd.eventType = some "CUSTOM_ANNOTATION" <;>
    by_cases h3 : truthyStr pd.userComment = true <;>
      simp [h1, h, h3]

lemma applyAnnotationDefaults_annotationType_default (pd : PostedData) (jd : JobDetails)
    (h1 : pd.eventType = some "CUSTOM_ANNOTATION") (h2 : truthyStr pd.annotationType = false) :
    (applyAnnotationDefaults pd jd).annotationType = some jd.pipelineName := by
  unfold applyAnnotationDefaults
  by_cases h3 : truthyStr pd.userComment = true <;> simp [h1, h2, h3]

lemma applyAnnotationDefaults_annotationDescription_of_no_comment (pd : PostedData)
    (jd : JobDetails) (h : truthyStr pd.userComment = false) :
    (applyAnnotationDefaults pd jd).annotationDescription = pd.annotationDescription := by
  unfold applyAnnotationDefaults
  by_cases h1 : pd.eventType = some "CUSTOM_ANNOTATION" <;>
    by_cases h2 : truthyStr pd.annotationType = true <;> simp [h1, h2, h]

lemma applyAnnotationDefaults_annotationDescription_of_comment (pd : PostedData)
    (jd : JobDetails) (h1 : pd.eventType = some "CUSTOM_ANNOTATION")
    (h2 : truthyStr pd.userComment = true) :
    (applyAnnotationDefaults pd jd).annotationDescription = pd.userComment := by
  unfold applyAnnotationDefaults
  by_cases h3 : truthyStr pd.annotationType = true <;> simp [h1, h2, h3]

lemma applyDeploymentDefaults_not_deployment (pd : PostedData) (jd : JobDetails)
    (jobId : String) (h : pd.eventType ≠ some "CUSTOM_DEPLOYMENT") :
    applyDeploymentDefaults pd jd jobId = pd := by
  unfold applyDeploymentDefaults
  simp [h]

lemma applyDeploymentDefaults_deploymentName_of_truthy (pd : PostedData) (jd : JobDetails)
    (jobId : String) (h : truthyStr pd.deploymentName = true) :
    (applyDeploymentDefaults pd jd jobId).deploymentName = pd.deploymentName := by
  unfold applyDeploymentDefaults
  cases hcd : jd.codedeploy <;> simp only [hcd] <;> split_ifs <;> simp_all

lemma applyDeploymentDefaults_deploymentVersion_of_truthy (pd : PostedData) (jd : JobDetails)
    (jobId : String) (h : truthyStr pd.deploymentVersion = true) :
    (applyDeploymentDefaults pd jd jobId).deploymentVersion = pd.deploymentVersion := by
  unfold applyDeploymentDefaults
  cases hcd : jd.codedeploy <;> simp only [hcd] <;> split_ifs <;> simp_all

lemma applyDeploymentDefaults_deploymentProject_of_truthy (pd : PostedData) (jd : JobDetails)
    (jobId : String) (h : truthyStr pd.deploymentProject = true) :
    (applyDeploymentDefaults pd jd jobId).deploymentProject = pd.deploymentProject := by
  unfold applyDeploymentDefaults
  cases hcd : jd.codedeploy <;> simp only [hcd] <;> split_ifs <;> simp_all

lemma applyDeploymentDefaults_deploymentVersion_default (pd : PostedData) (jd : JobDetails)
    (jobId : String) (h1 : pd.eventType = some "CUSTOM_DEPLOYMENT")
    (h2 : truthyStr pd.deploymentVersion = false) :
    (applyDeploymentDefaults pd jd jobId).deploymentVersion =
      some (match jd.codedeploy with
        | some cd => cd.deploymentId
        | none => jobId) := by
  unfold applyDeploymentDefaults
  cases hcd : jd.codedeploy <;> simp only [hcd] <;> split_ifs <;> simp_all

lemma applyCustomProps_of_some (pd : PostedData) (jd : JobDetails)
    (cp : List (String × String)) (h : pd.customProperties = some cp) :
    (applyCustomProps pd jd).customProperties =
      some (match jd.codedeploy with
        | none => cp
        | some cd =>
          setProp (setProp (setProp cp "CodeDeploy.DeploymentGroup" cd.deploymentGroup)
            "CodeDeploy.Application" cd.application) "CodeDeploy.DeploymentId" cd.deploymentId) := by
  unfold applyCustomProps
  cases hcd : jd.codedeploy <;> simp [hcd, h]

lemma defaultSource_source_of_truthy (pd : PostedData) (h : truthyStr pd.source = true) :
    (defaultSource pd).source = pd.source := by
  unfold defaultSource
  simp [h]

lemma applyCustomProps_id (pd : PostedData) (jd : JobDetails)
    (h1 : jd.codedeploy = none) (h2 : pd.customProperties.isSome = true) :
    applyCustomProps pd jd = pd := by
  unfold applyCustomProps
  simp [h1, h2]

lemma postToApi_apiCall_inv (pd : PostedData) (cfgToken cfgUrl codePipelineJobId : Option String)
    (context : Option Unit) (now : String) (u t : String) (e : WireEvent)
    (h : postToApi pd cfgToken cfgUrl codePipelineJobId context now = .apiCall u t e) :
    truthyStr (resolveConfig pd cfgToken cfgUrl).dtApiToken = true ∧
    truthyStr (resolveConfig pd cfgToken cfgUrl).dtTenantURL = true ∧
    (resolveConfig pd cfgToken cfgUrl).attachRules.isSome = true ∧
    truthyStr (resolveConfig pd cfgToken cfgUrl).eventType = true ∧
    ((resolveConfig pd cfgToken cfgUrl).eventType = some "CUSTOM_ANNOTATION" →
      truthyStr (resolveConfig pd cfgToken cfgUrl).annotationType = true) ∧
    ((resolveConfig pd cfgToken cfgUrl).eventType = some "CUSTOM_DEPLOYMENT" →
      truthyStr (resolveConfig pd cfgToken cfgUrl).deploymentName = true) ∧
    e = buildEvent (resolveConfig pd cfgToken cfgUrl) now := by
  unfold postToApi at h
  dsimp only at h
  split_ifs at h with h1 h2 h3 h4 h5 h6
  injection h with hu ht he
  refine ⟨by simpa using h1, by simpa using h2,
    by simp only [Option.isSome_iff_ne_none]; simpa [Option.isNone_iff_eq_none] using h3,
    by simpa using h4, ?_, ?_, he.symm⟩
  · intro hA
    by_contra hc
    exact h5 ⟨hA, by simpa using hc⟩
  · intro hD
    by_contra hc
    exact h6 ⟨hD, by simpa using hc⟩

/-! The claims. -/

/-- C1.  In `postToApi`, the mandatory fields are checked in the fixed order
`dtApiToken`, `dtTenantURL`, `attachRules`, `eventType`, then (by
`eventType`) `annotationType` or `deploymentName`; validation short-circuits
so only the first missing field's named error message is handed to
`reportError`, and whenever any mandatory field is missing the HTTP call is
not reached (contrapositively: reaching the HTTP call implies every mandatory
field was present).  In particular, missing both `dtApiToken` and
`attachRules` reports the `dtApiToken` error, never the `attachRules` one. -/
theorem postToApi_validation_order (pd : PostedData)
    (cfgToken cfgUrl codePipelineJobId : Option String) (context : Option Unit) (now : String) :
    (truthyStr (resolveConfig pd cfgToken cfgUrl).dtApiToken = false →
      postToApi pd cfgToken cfgUrl codePipelineJobId context now =
        .reported "dtApiToken missing" (reportError "dtApiToken missing" codePipelineJobId none)) ∧
    (truthyStr (resolveConfig pd cfgToken cfgUrl).dtApiToken = true →
      truthyStr (resolveConfig pd cfgToken cfgUrl).dtTenantURL = false →
      postToApi pd cfgToken cfgUrl codePipelineJobId context now =
        .reported "dtTenantURL missing" (reportError "dtTenantURL missing" codePipelineJobId none)) ∧
    (truthyStr (resolveConfig pd cfgToken cfgUrl).dtApiToken = true →
      truthyStr (resolveConfig pd cfgToken cfgUrl).dtTenantURL = true →
      (resolveConfig pd cfgToken cfgUrl).attachRules = none →
      postToApi pd cfgToken cfgUrl codePipelineJobId context now =
        .reported "attachRules missing" (reportError "attachRules missing" codePipelineJobId none)) ∧
    (truthyStr (resolveConfig pd cfgToken cfgUrl).dtApiToken = true →
      truthyStr (resolveConfig pd cfgToken cfgUrl).dtTenantURL = true →
      (resolveConfig pd cfgToken cfgUrl).attachRules ≠ none →
      truthyStr (resolveConfig pd cfgToken cfgUrl).eventType = false →
      postToApi pd cfgToken cfgUrl codePipelineJobId context now =
        .reported "eventType missing" (reportError "eventType missing" codePipelineJobId none)) ∧
    (truthyStr (resolveConfig pd cfgToken cfgUrl).dtApiToken = true →
      truthyStr (resolveConfig pd cfgToken cfgUrl).dtTenantURL = true →
      (resolveConfig pd cfgToken cfgUrl).attachRules ≠ none →
      (resolveConfig pd cfgToken cfgUrl).eventType = some "CUSTOM_ANNOTATION" →
      truthyStr (resolveConfig pd cfgToken cfgUrl).annotationType = false →
      postToApi pd cfgToken cfgUrl codePipelineJobId context now =
        .reported "annotationType missing" (reportError "annotationType missing" codePipelineJobId none)) ∧
    (truthyStr (resolveConfig pd cfgToken cfgUrl).dtApiToken = true →
      truthyStr (resolveConfig pd cfgToken cfgUrl).dtTenantURL = true →
      (resolveConfig pd cfgToken cfgUrl).attachRules ≠ none →
      (resolveConfig pd cfgToken cfgUrl).eventType = some "CUSTOM_DEPLOYMENT" →
      truthyStr (resolveConfig pd cfgToken cfgUrl).deploymentName = false →
      postToApi pd cfgToken cfgUrl codePipelineJobId context now =
        .reported "deploymentName missing" (reportError "deploymentName missing" codePipelineJobId none)) ∧
    (∀ u t e, postToApi pd cfgToken cfgUrl codePipelineJobId context now = .apiCall u t e →
      truthyStr (resolveConfig pd cfgToken cfgUrl).dtApiToken = true ∧
      truthyStr (resolveConfig pd cfgToken cfgUrl).dtTenantURL = true ∧
      (resolveConfig pd cfgToken cfgUrl).attachRules ≠ none ∧
      truthyStr (resolveConfig pd cfgToken cfgUrl).eventType = true ∧
      ((resolveConfig pd cfgToken cfgUrl).eventType = some "CUSTOM_ANNOTATION" →
        truthyStr (resolveConfig pd cfgToken cfgUrl).annotationType = true) ∧
      ((resolveConfig pd cfgToken cfgUrl).eventType = some "CUSTOM_DEPLOYMENT" →
        truthyStr (resolveConfig pd cfgToken cfgUrl).deploymentName = true)) := by
  refine ⟨?_, ?_, ?_, ?_, ?_, ?_, ?_⟩
  · intro h1
    unfold postToApi
    simp [h1]
  · intro h1 h2
    unfold postToApi
    simp [h1, h2]
  · intro h1 h2 h3
    unfold postToApi
    simp [h1, h2, h3]
  · intro h1 h2 h3 h4
    unfold postToApi
    simp [h1, h2, Option.isNone_iff_eq_none, h3, h4]
  · intro h1 h2 h3 h4 h5
    unfold postToApi
    simp [h1, h2, Option.isNone_iff_eq_none, h3, h4, h5]
    decide
  · intro h1 h2 h3 h4 h5
    unfold postToApi
    simp [h1, h2, Option.isNone_iff_eq_none, h3, h4, h5]
    decide
  · intro u t e h
    obtain ⟨g1, g2, g3, g4, g5, g6, _⟩ :=
      postToApi_apiCall_inv pd cfgToken cfgUrl codePipelineJobId context now u t e h
    exact ⟨g1, g2, by simpa [Option.isSome_iff_ne_none] using g3, g4, g5, g6⟩

/-- C1 witness.  A record missing both `dtApiToken` and `attachRules` reports
the `dtApiToken` error (and, invoked without a CodePipeline job id, the
reporting path crashes on the undefined context — see C10). -/
theorem postToApi_validation_order_witness :
    postToApi pdMissingTokenAndRules none none none none "0" =
      .reported "dtApiToken missing" (reportError "dtApiToken missing" none none) :=
  (postToApi_validation_order pdMissingTokenAndRules none none none none "0").1 (by decide)

/-- C10.  Every mandatory-field validation failure of `postToApi` invokes
`reportError` without the `context` argument; consequently, when the
invocation has no CodePipeline job id, the failure is never delivered through
`context.fail` — the reporting path crashes on the undefined context
instead. -/
theorem validation_error_drops_context (pd : PostedData)
    (cfgToken cfgUrl codePipelineJobId : Option String) (context : Option Unit) (now : String)
    (m : String) (d : ReportDelivery)
    (h : postToApi pd cfgToken cfgUrl codePipelineJobId context now = .reported m d) :
    d = reportError m codePipelineJobId none ∧
    (codePipelineJobId = none → d = .crashUndefinedContext ∧ d ≠ .viaContextFail) := by
  unfold postToApi at h
  dsimp only at h
  split_ifs at h
  all_goals injection h with hm hd
  all_goals subst hm
  all_goals subst hd
  all_goals exact ⟨rfl, fun hj => by subst hj; exact ⟨rfl, by simp [reportError]⟩⟩

/-- C10 witness.  A direct invocation (no job id, a live context) with a
record missing `dtApiToken`: the delivery crashes on the undefined context
rather than using `context.fail`. -/
theorem validation_error_drops_context_witness :
    ReportDelivery.crashUndefinedContext = reportError "dtApiToken missing" none none ∧
    (ReportDelivery.crashUndefinedContext = .crashUndefinedContext ∧
      ReportDelivery.crashUndefinedContext ≠ .viaContextFail) := by
  have := validation_error_drops_context pdMissingTokenAndRules none none none (some ()) "0"
    "dtApiToken missing" ReportDelivery.crashUndefinedContext (by decide)
  exact ⟨this.1, this.2 rfl⟩

/-- C6 counterexample.  A record whose `attachRules` is present but empty
(neither tag rules nor entity identifiers) passes validation, and the HTTP
call is performed with that empty `attachRules` value — refuting the claim
that no submission ever proceeds with an empty `attachRules`. -/
theorem empty_attachRules_submitted_counterexample :
    (postToApi pdEmptyRules (some "tok") (some "https://t") none none "0").isApiCall = true ∧
    (postToApi pdEmptyRules (some "tok") (some "https://t") none none "0").callEvent.map
      (fun e => e.attachRules) = some (some { tagRule := some [], entityIds := none }) ∧
    AttachRules.isEmptyRules { tagRule := some [], entityIds := none } = true := by
  decide

/-- C6 amended.  Whenever the HTTP call is performed, `attachRules` is
present (non-null) on the submitted payload; the code checks only presence,
not non-emptiness, so the rules may be empty. -/
theorem apiCall_attachRules_present (pd : PostedData)
    (cfgToken cfgUrl codePipelineJobId : Option String) (context : Option Unit) (now : String)
    (u t : String) (e : WireEvent)
    (h : postToApi pd cfgToken cfgUrl codePipelineJobId context now = .apiCall u t e) :
    e.attachRules.isSome = true := by
  obtain ⟨-, -, h3, -, -, -, he⟩ :=
    postToApi_apiCall_inv pd cfgToken cfgUrl codePipelineJobId context now u t e h
  subst he
  simpa [buildEvent] using h3

/-- C6 amended witness.  A fully populated record reaches the HTTP call with
its `attachRules` present. -/
theorem apiCall_attachRules_present_witness :
    ((buildEvent (resolveConfig pdComplete none none) "0").attachRules).isSome = true := by
  exact apiCall_attachRules_present pdComplete none none none none "0"
    ((resolveConfig pdComplete none none).dtTenantURL.getD "" ++ "/api/v1/events")
    ((resolveConfig pdComplete none none).dtApiToken.getD "")
    (buildEvent (resolveConfig pdComplete none none) "0") (by decide)

/-- C2 counterexample.  A 400 response whose body starts with a brace but is
not parsable JSON makes the callback throw inside `JSON.parse` — no generic
`SubmissionFailed` outcome carrying the raw body is produced, refuting the
claim that every unparsable body yields the generic failure outcome. -/
theorem unparsable_body_crash_counterexample :
    classifyResponse 400 "\x7bnot-json" none = .crash ∧
    classifyResponse 400 "\x7bnot-json" none ≠ .submissionFailed "\x7bnot-json" := by
  decide

/-- C2 amended.  Status 200 yields Success; status 400 with a body starting
with a brace that parses to an error object whose message contains the
no-matching-entities substring yields NoMatchingEntities; every other status,
and an unparsable body NOT starting with a brace, yields the generic
SubmissionFailed outcome carrying the raw body; but a 400 body that starts
with a brace and fails to parse — or parses to an error object without a
message — crashes the callback and produces no outcome at all. -/
theorem classifyResponse_spec (s : Nat) (r : String) (p : Option ParsedBody) :
    (s = 200 → classifyResponse s r p = .success) ∧
    (s = 400 → jsStartsWith r "\x7b" = true → ∀ b err m, p = some b → b.error = some err →
      err.message = some m → jsIncludes m "No MEIdentifier do match" = true →
      classifyResponse s r p = .noMatchingEntities) ∧
    (s ≠ 200 → s ≠ 400 → classifyResponse s r p = .submissionFailed r) ∧
    (s = 400 → jsStartsWith r "\x7b" = false → classifyResponse s r p = .submissionFailed r) ∧
    (s = 400 → jsStartsWith r "\x7b" = true → p = none → classifyResponse s r p = .crash) ∧
    (s = 400 → jsStartsWith r "\x7b" = true → ∀ b, p = some b → b.error = none →
      classifyResponse s r p = .submissionFailed r) ∧
    (s = 400 → jsStartsWith r "\x7b" = true → ∀ b err, p = some b → b.error = some err →
      err.message = none → classifyResponse s r p = .crash) ∧
    (s = 400 → jsStartsWith r "\x7b" = true → ∀ b err m, p = some b → b.error = some err →
      err.message = some m → jsIncludes m "No MEIdentifier do match" = false →
      classifyResponse s r p = .submissionFailed r) := by
  refine ⟨?_, ?_, ?_, ?_, ?_, ?_, ?_, ?_⟩ <;> intros <;> subst_vars <;>
    simp_all [classifyResponse]

/-- C2 amended witness.  A 400 response with the documented
no-matching-entities error body is classified as NoMatchingEntities. -/
theorem classifyResponse_spec_witness :
    classifyResponse 400 "\x7berr"
      (some ⟨some ⟨some "Invalid attachRules object provided. No MEIdentifier do match: x"⟩⟩) =
      .noMatchingEntities := by
  exact (classifyResponse_spec 400 "\x7berr"
      (some ⟨some ⟨some "Invalid attachRules object provided. No MEIdentifier do match: x"⟩⟩)).2.1
    rfl (by decide) _ _ _ rfl rfl rfl (by decide)

/-- C3 counterexample.  A caller-supplied `customProperties` mapping is
mutated by normalization whenever the job context carries CodeDeploy details:
the three prefixed CodeDeploy keys are merged into it. -/
theorem customProperties_partial_merge_counterexample :
    pdWithCustomProps.customProperties = some [("X", "Y")] ∧
    (normalize pdWithCustomProps jdWithDeploy "job-1").customProperties ≠ some [("X", "Y")] ∧
    (normalize pdWithCustomProps jdWithDeploy "job-1").customProperties =
      some [("X", "Y"), ("CodeDeploy.DeploymentGroup", "G"), ("CodeDeploy.Application", "App"),
            ("CodeDeploy.DeploymentId", "d-1")] := by
  decide

/-- C3 amended.  A caller-supplied `customProperties` mapping is preserved
exactly when the job context has no CodeDeploy details; when it has them, the
three prefixed CodeDeploy keys are assigned into the caller's mapping (a
partial merge).  The pipeline-name/stage/action default is applied only when
no mapping was supplied. -/
theorem customProperties_merge_spec (pd : PostedData) (jd : JobDetails) (jobId : String)
    (cp : List (String × String)) (h : pd.customProperties = some cp) :
    (normalize pd jd jobId).customProperties =
      some (match jd.codedeploy with
        | none => cp
        | some cd =>
          setProp (setProp (setProp cp "CodeDeploy.DeploymentGroup" cd.deploymentGroup)
            "CodeDeploy.Application" cd.application) "CodeDeploy.DeploymentId" cd.deploymentId) := by
  unfold normalize
  rw [(defaultSource_preserves _).2.2.2.2.2.2]
  rw [applyCustomProps_of_some _ jd cp
    (by rw [(applyDeploymentDefaults_preserves _ _ _).2.2.2.1,
            (applyAnnotationDefaults_preserves _ _).2.2.2.2.1,
            (defaultEventType_preserves _ _).2.2.2.2.2.1, h])]

/-- C3 amended witness.  Without CodeDeploy details the supplied mapping is
returned unchanged. -/
theorem customProperties_merge_spec_witness :
    (normalize pdWithCustomProps jdNoDeploy "j").customProperties = some [("X", "Y")] := by
  exact customProperties_merge_spec pdWithCustomProps jdNoDeploy "j" [("X", "Y")] (by decide)

/-- C4 counterexample.  For `UserParameters = "Production,http:u"` the code
re-initializes the record before capturing the remote location, so the parsed
record does NOT retain `environmentName = "Production"` — refuting the claim
that the first segment is kept as the environment name. -/
theorem url_param_env_lost_counterexample :
    (parseCommaUserParams "Production,http:u").1.environmentName = none ∧
    (parseCommaUserParams "Production,http:u").1.environmentName ≠ some "Production" ∧
    (parseCommaUserParams "Production,http:u").1.userComment = none ∧
    (parseCommaUserParams "Production,http:u").2 = some "http:u" := by
  decide

/-- C4 amended.  For every non-JSON comma-separated user-parameter string
with at least two segments whose second segment begins with the URL scheme
prefix, the parsed partial record is reset to the empty record — so it has no
`userComment` but also no `environmentName` — and the second segment is
captured as the remote specification-file location. -/
theorem parse_url_segment_spec (up seg1 : String)
    (h0 : jsStartsWith up "\x7b" = false)
    (h1 : (jsSplit up ',').length > 1)
    (h2 : (jsSplit up ',').getD 1 "" = seg1)
    (h3 : jsStartsWith seg1 "http" = true) :
    parseCommaUserParams up = (emptyPostedData, some seg1) := by
  subst h2
  unfold parseCommaUserParams
  dsimp only
  rw [if_pos (by rw [Bool.and_eq_true]; exact ⟨decide_eq_true h1, h3⟩)]

/-- C4 amended witness. -/
theorem parse_url_segment_spec_witness :
    parseCommaUserParams "Production,http:u" = (emptyPostedData, some "http:u") := by
  exact parse_url_segment_spec "Production,http:u" "http:u" (by decide) (by decide) (by decide)
    (by decide)

/-- C5 counterexample.  A record with an explicitly set
`annotationDescription` (and a user comment) has that value overwritten by
normalization, and its explicitly supplied `customProperties` mapping is
mutated — refuting the claim that explicitly set fields are always left
unchanged. -/
theorem explicit_fields_overwritten_counterexample :
    pdExplicitAnnotation.annotationDescription = some "y" ∧
    (normalize pdExplicitAnnotation jdWithDeploy "job-1").annotationDescription = some "x" ∧
    (normalize pdExplicitAnnotation jdWithDeploy "job-1").annotationDescription ≠ some "y" ∧
    pdExplicitAnnotation.customProperties = some [("X", "Y")] ∧
    (normalize pdExplicitAnnotation jdWithDeploy "job-1").customProperties ≠ some [("X", "Y")] := by
  decide

/-- C5 amended.  Normalization preserves explicitly set (truthy) values of
`eventType`, `annotationType`, `deploymentName`, `deploymentVersion`,
`deploymentProject` and `source`; but `annotationDescription` is only
preserved when no user comment was captured (a user comment overwrites it for
annotation events), and a supplied `customProperties` mapping is only left
unchanged when the job context has no CodeDeploy details. -/
theorem normalize_explicit_precedence (pd : PostedData) (jd : JobDetails) (jobId : String) :
    (truthyStr pd.eventType = true → (normalize pd jd jobId).eventType = pd.eventType) ∧
    (truthyStr pd.annotationType = true →
      (normalize pd jd jobId).annotationType = pd.annotationType) ∧
    (truthyStr pd.deploymentName = true →
      (normalize pd jd jobId).deploymentName = pd.deploymentName) ∧
    (truthyStr pd.deploymentVersion = true →
      (normalize pd jd jobId).deploymentVersion = pd.deploymentVersion) ∧
    (truthyStr pd.deploymentProject = true →
      (normalize pd jd jobId).deploymentProject = pd.deploymentProject) ∧
    (truthyStr pd.source = true → (normalize pd jd jobId).source = pd.source) ∧
    (truthyStr pd.userComment = false →
      (normalize pd jd jobId).annotationDescription = pd.annotationDescription) ∧
    (jd.codedeploy = none → pd.customProperties.isSome = true →
      (normalize pd jd jobId).customProperties = pd.customProperties) := by
  refine ⟨?_, ?_, ?_, ?_, ?_, ?_, ?_, ?_⟩
  · intro h
    unfold normalize
    rw [(defaultSource_preserves _).1, (applyCustomProps_preserves _ _).1,
        (applyDeploymentDefaults_preserves _ _ _).1, (applyAnnotationDefaults_preserves _ _).1,
        defaultEventType_eventType_of_truthy pd jd h]
  · intro h
    unfold normalize
    rw [(defaultSource_preserves _).2.1, (applyCustomProps_preserves _ _).2.1,
        (applyDeploymentDefaults_preserves _ _ _).2.1,
        applyAnnotationDefaults_annotationType_of_truthy _ jd
          (by rw [(defaultEventType_preserves pd jd).1]; exact h),
        (defaultEventType_preserves pd jd).1]
  · intro h
    unfold normalize
    rw [(defaultSource_preserves _).2.2.2.1, (applyCustomProps_preserves _ _).2.2.2.1,
        applyDeploymentDefaults_deploymentName_of_truthy _ jd jobId
          (by rw [(applyAnnotationDefaults_preserves _ _).2.1,
                  (defaultEventType_preserves pd jd).2.2.1]; exact h),
        (applyAnnotationDefaults_preserves _ _).2.1, (defaultEventType_preserves pd jd).2.2.1]
  · intro h
    unfold normalize
    rw [(defaultSource_preserves _).2.2.2.2.1, (applyCustomProps_preserves _ _).2.2.2.2.1,
        applyDeploymentDefaults_deploymentVersion_of_truthy _ jd jobId
          (by rw [(applyAnnotationDefaults_preserves _ _).2.2.1,
                  (defaultEventType_preserves pd jd).2.2.2.1]; exact h),
        (applyAnnotationDefaults_preserves _ _).2.2.1, (defaultEventType_preserves pd jd).2.2.2.1]
  · intro h
    unfold normalize
    rw [(defaultSource_preserves _).2.2.2.2.2.1, (applyCustomProps_preserves _ _).2.2.2.2.2.1,
        applyDeploymentDefaults_deploymentProject_of_truthy _ jd jobId
          (by rw [(applyAnnotationDefaults_preserves _ _).2.2.2.1,
                  (defaultEventType_preserves pd jd).2.2.2.2.1]; exact h),
        (applyAnnotationDefaults_preserves _ _).2.2.2.1,
        (defaultEventType_preserves pd jd).2.2.2.2.1]
  · intro h
    unfold normalize
    rw [defaultSource_source_of_truthy _
          (by rw [(applyCustomProps_preserves _ _).2.2.2.2.2.2.1,
                  (applyDeploymentDefaults_preserves _ _ _).2.2.2.2.1,
                  (applyAnnotationDefaults_preserves _ _).2.2.2.2.2.1,
                  (defaultEventType_preserves pd jd).2.2.2.2.2.2.1]; exact h),
        (applyCustomProps_preserves _ _).2.2.2.2.2.2.1,
        (applyDeploymentDefaults_preserves _ _ _).2.2.2.2.1,
        (applyAnnotationDefaults_preserves _ _).2.2.2.2.2.1,
        (defaultEventType_preserves pd jd).2.2.2.2.2.2.1]
  · intro h
    unfold normalize
    rw [(defaultSource_preserves _).2.2.1, (applyCustomProps_preserves _ _).2.2.1,
        (applyDeploymentDefaults_preserves _ _ _).2.2.1,
        applyAnnotationDefaults_annotationDescription_of_no_comment _ jd
          (by rw [(defaultEventType_preserves pd jd).2.2.2.2.2.2.2]; exact h),
        (defaultEventType_preserves pd jd).2.1]
  · intro h1 h2
    unfold normalize
    rw [(defaultSource_preserves _).2.2.2.2.2.2,
        applyCustomProps_id _ jd h1
          (by rw [(applyDeploymentDefaults_preserves _ _ _).2.2.2.1,
                  (applyAnnotationDefaults_preserves _ _).2.2.2.2.1,
                  (defaultEventType_preserves pd jd).2.2.2.2.2.1]; exact h2),
        (applyDeploymentDefaults_preserves _ _ _).2.2.2.1,
        (applyAnnotationDefaults_preserves _ _).2.2.2.2.1,
        (defaultEventType_preserves pd jd).2.2.2.2.2.1]

/-- C5 amended witness.  A record with every relevant field explicitly set
(and no user comment), normalized against a job context without CodeDeploy
details, keeps all of them. -/
theorem normalize_explicit_precedence_witness :
    (normalize pdAllExplicit jdNoDeploy "j").eventType = pdAllExplicit.eventType ∧
    (normalize pdAllExplicit jdNoDeploy "j").annotationType = pdAllExplicit.annotationType ∧
    (normalize pdAllExplicit jdNoDeploy "j").deploymentName = pdAllExplicit.deploymentName ∧
    (normalize pdAllExplicit jdNoDeploy "j").deploymentVersion = pdAllExplicit.deploymentVersion ∧
    (normalize pdAllExplicit jdNoDeploy "j").deploymentProject = pdAllExplicit.deploymentProject ∧
    (normalize pdAllExplicit jdNoDeploy "j").source = pdAllExplicit.source ∧
    (normalize pdAllExplicit jdNoDeploy "j").annotationDescription =
      pdAllExplicit.annotationDescription ∧
    (normalize pdAllExplicit jdNoDeploy "j").customProperties = pdAllExplicit.customProperties := by
  have H := normalize_explicit_precedence pdAllExplicit jdNoDeploy "j"
  exact ⟨H.1 (by decide), H.2.1 (by decide), H.2.2.1 (by decide), H.2.2.2.1 (by decide),
    H.2.2.2.2.1 (by decide), H.2.2.2.2.2.1 (by decide), H.2.2.2.2.2.2.1 (by decide),
    H.2.2.2.2.2.2.2 (by decide) (by decide)⟩

/-- C7.  For a normalization whose resulting event type is CUSTOM_DEPLOYMENT
and whose input had no (truthy) `deploymentVersion`, the defaulted
`deploymentVersion` is the CodeDeploy deployment id when the job context has
CodeDeploy details, and the CodePipeline job id otherwise. -/
theorem deploymentVersion_default (pd : PostedData) (jd : JobDetails) (jobId : String)
    (h1 : truthyStr pd.deploymentVersion = false)
    (h2 : (normalize pd jd jobId).eventType = some "CUSTOM_DEPLOYMENT") :
    (normalize pd jd jobId).deploymentVersion =
      some (match jd.codedeploy with
        | some cd => cd.deploymentId
        | none => jobId) := by
  have hET : (normalize pd jd jobId).eventType =
      (applyAnnotationDefaults (defaultEventType pd jd) jd).eventType := by
    unfold normalize
    rw [(defaultSource_preserves _).1, (applyCustomProps_preserves _ _).1,
        (applyDeploymentDefaults_preserves _ _ _).1]
  unfold normalize
  rw [(defaultSource_preserves _).2.2.2.2.1, (applyCustomProps_preserves _ _).2.2.2.2.1,
      applyDeploymentDefaults_deploymentVersion_default _ jd jobId
        (by rw [← hET]; exact h2)
        (by rw [(applyAnnotationDefaults_preserves _ _).2.2.1,
                (defaultEventType_preserves pd jd).2.2.2.1]; exact h1)]

/-- C7 witness.  An explicit CUSTOM_DEPLOYMENT record with no deployment
version, in a job context without CodeDeploy details, defaults the version to
the job id. -/
theorem deploymentVersion_default_witness :
    (normalize pdDeployOnly jdNoDeploy "jid-9").deploymentVersion = some "jid-9" := by
  exact deploymentVersion_default pdDeployOnly jdNoDeploy "jid-9" (by decide) (by decide)

/-- C8.  If the job-context lookup errors, the CodePipeline branch reports
the failure through the invocation callback; if the artifact download errors,
it reports a job failure; in both cases no submission to the monitoring API
takes place. -/
theorem lookup_failure_aborts (parsedData : PostedData) (jobId : String) (hasArt : Bool)
    (dres : Except String (List String)) (e : String) :
    handlePipelineJob parsedData jobId (.error e) hasArt dres =
      .callbackFailure ("Cant retrieve job details from CodePipeline: " ++ e) ∧
    (∀ pd', handlePipelineJob parsedData jobId (.error e) hasArt dres ≠ .apiSubmission pd') ∧
    (∀ jd, handlePipelineJob parsedData jobId (.ok jd) true (.error e) = .putJobFailure e) ∧
    (∀ jd pd', handlePipelineJob parsedData jobId (.ok jd) true (.error e) ≠
      .apiSubmission pd') := by
  refine ⟨rfl, fun pd' => by simp [handlePipelineJob], fun jd => by simp [handlePipelineJob],
    fun jd pd' => by simp [handlePipelineJob]⟩

/-- C8 witness. -/
theorem lookup_failure_aborts_witness :
    handlePipelineJob emptyPostedData "j" (.error "boom") true (.ok []) =
      .callbackFailure ("Cant retrieve job details from CodePipeline: " ++ "boom") ∧
    handlePipelineJob emptyPostedData "j" (.ok jdNoDeploy) true (.error "boom") =
      .putJobFailure "boom" := by
  have H := lookup_failure_aborts emptyPostedData "j" true (.ok []) "boom"
  exact ⟨H.1, H.2.2.1 jdNoDeploy⟩

/-- C9.  For `UserParameters = "Production,Deployed successfully"` and a job
context without CodeDeploy details, the normalized record has eventType
CUSTOM_ANNOTATION, annotationDescription "Deployed successfully", and
annotationType equal to the pipeline name. -/
theorem annotation_scenario (jd : JobDetails) (jobId : String) (h : jd.codedeploy = none) :
    (normalize (parseCommaUserParams "Production,Deployed successfully").1 jd jobId).eventType =
      some "CUSTOM_ANNOTATION" ∧
    (normalize (parseCommaUserParams "Production,Deployed successfully").1 jd
      jobId).annotationDescription = some "Deployed successfully" ∧
    (normalize (parseCommaUserParams "Production,Deployed successfully").1 jd
      jobId).annotationType = some jd.pipelineName := by
  have hp : (parseCommaUserParams "Production,Deployed successfully").1 = pdScenario := by
    decide
  rw [hp]
  unfold normalize defaultEventType applyAnnotationDefaults applyDeploymentDefaults
    applyCustomProps defaultSource
  simp [h, truthyStr, pdScenario, emptyPostedData]

/-- C9 witness. -/
theorem annotation_scenario_witness :
    (normalize (parseCommaUserParams "Production,Deployed successfully").1 jdNoDeploy
      "j").eventType = some "CUSTOM_ANNOTATION" ∧
    (normalize (parseCommaUserParams "Production,Deployed successfully").1 jdNoDeploy
      "j").annotationDescription = some "Deployed successfully" ∧
    (normalize (parseCommaUserParams "Production,Deployed successfully").1 jdNoDeploy
      "j").annotationType = some "MyPipe" := by
  have H := annotation_scenario jdNoDeploy "j" (by decide)
  exact ⟨H.1, H.2.1, H.2.2⟩

end DTEvent
